import Mathlib

/-!
Shallow embedding of the `web-kubeauth` repository (two Go variants:
`src/cmd/main.go`, the mTLS-probe handler, and `src/unnamed/part_000`, the
session/RBAC handler).  External library calls (yaml parsing, base64
decoding, `tls.X509KeyPair`, `x509.CertPool.AppendCertsFromPEM`, the HTTP
client, the Kubernetes clientset) are modelled as oracle parameters; the
repository's own control flow, lookups, error mapping, session writes and
byte-buffer zeroing are embedded concretely.  Byte buffers are `List Nat`.
-/

/-- A kubeconfig context entry: `{name, context: {cluster, user}}`. -/
structure ContextEntry where
  name : String
  cluster : String
  user : String
deriving DecidableEq, Repr

/-- A kubeconfig user entry: `{name, user: {client-certificate-data, client-key-data}}`. -/
structure UserEntry where
  name : String
  clientCertificateData : String
  clientKeyData : String
deriving DecidableEq, Repr

/-- A kubeconfig cluster entry: `{name, cluster: {server, certificate-authority-data}}`. -/
structure ClusterEntry where
  name : String
  server : String
  certificateAuthorityData : String
deriving DecidableEq, Repr

/-- The `KubeConfig` struct shared by both variants. -/
structure KubeConfig where
  contexts : List ContextEntry
  users : List UserEntry
  clusters : List ClusterEntry
deriving DecidableEq, Repr

/-- The Go zero value of `KubeConfig` (nil slices). -/
def KubeConfig.empty : KubeConfig := ⟨[], [], []⟩

/-- Process state after startup: `kubeConfigBytes` (`none` models the nil
slice set on a read error) and the parsed `kubeConfig` value. -/
structure AppState where
  kubeConfigBytes : Option (List Nat)
  kubeConfig : KubeConfig
deriving DecidableEq, Repr

/-- A subject of a ClusterRoleBinding (`subject.Kind`, `subject.Name`). -/
structure Subject where
  kind : String
  name : String
deriving DecidableEq, Repr

/-- The role reference of a binding (`crb.RoleRef.Name`). -/
structure RoleRef where
  name : String
deriving DecidableEq, Repr

/-- A ClusterRoleBinding item as used by the handler: `RoleRef` and `Subjects`. -/
structure RoleBinding where
  roleRef : RoleRef
  subjects : List Subject
deriving DecidableEq, Repr

/-- The subject test on line 172 of `src/unnamed/part_000`:
`subject.Kind == "User" && subject.Name == selectedUser && crb.RoleRef.Name == requiredRoleBinding`. -/
def subjectMatch (selectedUser requiredRoleBinding roleRefName : String)
    (s : Subject) : Bool :=
  s.kind == "User" && s.name == selectedUser && roleRefName == requiredRoleBinding

/-- The inner `for _, subject := range crb.Subjects` loop: sets the flag and
breaks at the first matching subject. -/
def subjectLoop (selectedUser requiredRoleBinding roleRefName : String) :
    List Subject → Bool
  | [] => false
  | s :: rest =>
    if subjectMatch selectedUser requiredRoleBinding roleRefName s then true
    else subjectLoop selectedUser requiredRoleBinding roleRefName rest

/-- The outer `for _, crb := range crbs.Items` loop of lines 168-180 of
`src/unnamed/part_000`: `userAuthorized` starts false, the inner loop may set
it, and `if userAuthorized { break }` stops at the first authorizing binding. -/
def userAuthorized (selectedUser requiredRoleBinding : String) :
    List RoleBinding → Bool
  | [] => false
  | crb :: rest =>
    if subjectLoop selectedUser requiredRoleBinding crb.roleRef.name crb.subjects then
      true
    else userAuthorized selectedUser requiredRoleBinding rest

/-- The inner loop is the existential `List.any` over subjects. -/
theorem subjectLoop_eq_any (u r rn : String) (ss : List Subject) :
    subjectLoop u r rn ss = ss.any (subjectMatch u r rn) := by
  induction ss with
  | nil => rfl
  | cons s rest ih =>
    simp only [subjectLoop, List.any_cons]
    by_cases h : subjectMatch u r rn s = true
    · simp [h]
    · simp [h, ih]

/-- The whole match loop is the existential `List.any` over bindings. -/
theorem userAuthorized_eq_any (u r : String) (bs : List RoleBinding) :
    userAuthorized u r bs
      = bs.any (fun crb => crb.subjects.any (subjectMatch u r crb.roleRef.name)) := by
  induction bs with
  | nil => rfl
  | cons crb rest ih =>
    simp only [userAuthorized, List.any_cons, subjectLoop_eq_any]
    by_cases h : crb.subjects.any (subjectMatch u r crb.roleRef.name) = true
    · simp [h]
    · simp [h, ih]

/-- Claim C1: the authorization loop decides exactly the existential property:
`userAuthorized` is true iff some binding has `roleRef.name` equal to the
required role and some subject of kind "User" whose name is the identity's
name; any binding sequence lacking such a binding yields false. -/
theorem checkAccess_iff_exists (selectedUser requiredRoleBinding : String)
    (bindings : List RoleBinding) :
    userAuthorized selectedUser requiredRoleBinding bindings = true ↔
      ∃ crb ∈ bindings, crb.roleRef.name = requiredRoleBinding ∧
        ∃ s ∈ crb.subjects, s.kind = "User" ∧ s.name = selectedUser := by
  rw [userAuthorized_eq_any]
  simp only [List.any_eq_true, subjectMatch, Bool.and_eq_true, beq_iff_eq]
  constructor
  · rintro ⟨crb, hcrb, s, hs, ⟨hk, hn⟩, hr⟩
    exact ⟨crb, hcrb, hr, s, hs, hk, hn⟩
  · rintro ⟨crb, hcrb, hr, s, hs, hk, hn⟩
    exact ⟨crb, hcrb, s, hs, ⟨hk, hn⟩, hr⟩

/-- `List.any` is invariant under permutation of the list. -/
theorem perm_any_eq {α : Type} (p : α → Bool) {l₁ l₂ : List α}
    (h : l₁.Perm l₂) : l₁.any p = l₂.any p := by
  refine Bool.eq_iff_iff.mpr ?_
  simp only [List.any_eq_true]
  constructor
  · rintro ⟨a, ha, hp⟩
    exact ⟨a, h.mem_iff.mp ha, hp⟩
  · rintro ⟨a, ha, hp⟩
    exact ⟨a, h.mem_iff.mpr ha, hp⟩

/-- Two bindings that agree on the role reference and whose subject lists are
permutations of each other. -/
def BindingEquiv (b b' : RoleBinding) : Prop :=
  b.roleRef.name = b'.roleRef.name ∧ b.subjects.Perm b'.subjects

/-- Reordering subjects inside each binding keeps the per-binding `any` alike. -/
theorem forall2_any_eq (u r : String) {bs mid : List RoleBinding}
    (hf : List.Forall₂ BindingEquiv bs mid) :
    bs.any (fun crb => crb.subjects.any (subjectMatch u r crb.roleRef.name))
      = mid.any (fun crb => crb.subjects.any (subjectMatch u r crb.roleRef.name)) := by
  induction hf with
  | nil => rfl
  | @cons a b l1 l2 hab htail ih =>
    simp only [List.any_cons, ih]
    have hhead : a.subjects.any (subjectMatch u r a.roleRef.name)
        = b.subjects.any (subjectMatch u r b.roleRef.name) := by
      rw [hab.1]
      exact perm_any_eq _ hab.2
    rw [hhead]

/-- Claim C7: the authorization decision is invariant under permuting the
binding sequence and the subject sequence inside each binding; the
first-match short-circuit in the loops does not change the outcome. -/
theorem checkAccess_perm_invariant (selectedUser requiredRoleBinding : String)
    (bs mid bs₂ : List RoleBinding)
    (hf : List.Forall₂ BindingEquiv bs mid) (hp : mid.Perm bs₂) :
    userAuthorized selectedUser requiredRoleBinding bs
      = userAuthorized selectedUser requiredRoleBinding bs₂ := by
  rw [userAuthorized_eq_any, userAuthorized_eq_any]
  rw [forall2_any_eq selectedUser requiredRoleBinding hf]
  exact perm_any_eq _ hp

/-- Witness for C7: a concrete shuffled pair of binding lists (subjects of the
second binding swapped, bindings then reversed) produces identical decisions. -/
theorem checkAccess_perm_invariant_witness :
    userAuthorized "alice" "cluster-admin"
        [⟨⟨"view"⟩, [⟨"Group", "devs"⟩]⟩,
         ⟨⟨"cluster-admin"⟩, [⟨"User", "bob"⟩, ⟨"User", "alice"⟩]⟩]
      = userAuthorized "alice" "cluster-admin"
        [⟨⟨"cluster-admin"⟩, [⟨"User", "alice"⟩, ⟨"User", "bob"⟩]⟩,
         ⟨⟨"view"⟩, [⟨"Group", "devs"⟩]⟩] :=
  checkAccess_perm_invariant "alice" "cluster-admin"
    [⟨⟨"view"⟩, [⟨"Group", "devs"⟩]⟩,
     ⟨⟨"cluster-admin"⟩, [⟨"User", "bob"⟩, ⟨"User", "alice"⟩]⟩]
    [⟨⟨"view"⟩, [⟨"Group", "devs"⟩]⟩,
     ⟨⟨"cluster-admin"⟩, [⟨"User", "alice"⟩, ⟨"User", "bob"⟩]⟩]
    [⟨⟨"cluster-admin"⟩, [⟨"User", "alice"⟩, ⟨"User", "bob"⟩]⟩,
     ⟨⟨"view"⟩, [⟨"Group", "devs"⟩]⟩]
    (List.Forall₂.cons ⟨rfl, List.Perm.refl _⟩
      (List.Forall₂.cons ⟨rfl, List.Perm.swap _ _ _⟩ List.Forall₂.nil))
    (List.Perm.swap _ _ _)

/-- Result of process startup (lines 58-74 of `src/cmd/main.go`; the same
lines appear in `src/unnamed/part_000`): a parse failure is `log.Fatalf`,
anything else leaves the process running. -/
inductive StartupOutcome where
  | fatal
  | running (st : AppState)
deriving DecidableEq, Repr

/-- Startup: `readResult` models the two return values of `os.ReadFile`
(`none` = read error, after which the handler sets the bytes to nil) and
`unmarshal` models `yaml.Unmarshal` (`none` = parse error). -/
def startup (readResult : Option (List Nat))
    (unmarshal : List Nat → Option KubeConfig) : StartupOutcome :=
  match readResult with
  | none => .running ⟨none, KubeConfig.empty⟩
  | some bs =>
    match unmarshal bs with
    | none => .fatal
    | some cfg => .running ⟨some bs, cfg⟩

/-- Response of the GET `/` handler (lines 77-85 of `src/cmd/main.go`). -/
inductive RootResponse where
  | contextsPage (ctxs : List ContextEntry)
  | noConfigMessage
deriving DecidableEq, Repr

/-- The GET `/` handler: renders the context list when
`kubeConfigBytes != nil && len(kubeConfig.Contexts) > 0`, otherwise the
"No kubeconfig found or no contexts available" message. -/
def rootHandler (st : AppState) : RootResponse :=
  if st.kubeConfigBytes ≠ none ∧ 0 < st.kubeConfig.contexts.length then
    .contextsPage st.kubeConfig.contexts
  else .noConfigMessage

/-- The `for _, ctx := range kubeConfig.Contexts` lookup loop (lines 98-104
of both variants): the `(user, cluster)` references of the first context
whose name matches, or the zero values `("", "")` when none matches. -/
def lookupContext : List ContextEntry → String → String × String
  | [], _ => ("", "")
  | ctx :: rest, selectedContext =>
    if ctx.name == selectedContext then (ctx.user, ctx.cluster)
    else lookupContext rest selectedContext

/-- The `for _, user := range kubeConfig.Users` loop: first user entry whose
name matches, if any. -/
def lookupUser : List UserEntry → String → Option UserEntry
  | [], _ => none
  | u :: rest, selectedUser =>
    if u.name == selectedUser then some u else lookupUser rest selectedUser

/-- The `for _, cluster := range kubeConfig.Clusters` loop: first cluster
entry whose name matches, if any. -/
def lookupCluster : List ClusterEntry → String → Option ClusterEntry
  | [], _ => none
  | cl :: rest, selectedCluster =>
    if cl.name == selectedCluster then some cl else lookupCluster rest selectedCluster

/-- Oracles for the external library calls made by the `/select-context`
handler of `src/cmd/main.go`.  `decodeData` and `decodeOk` model the two
return values of `base64.StdEncoding.DecodeString` (the handler discards the
error value with `_`, so `decodeOk` is never consulted); `x509KeyPairOk`
models `tls.X509KeyPair` returning a nil error; `appendCertsFromPEM` models
`x509.CertPool.AppendCertsFromPEM`; `clientGet` models the single
`client.Get(clusterServer)` call (`none` = transport error, `some s` = a
response with HTTP status `s`). -/
structure CmdOracles where
  decodeData : String → List Nat
  decodeOk : String → Bool
  x509KeyPairOk : List Nat → List Nat → Bool
  appendCertsFromPEM : List Nat → Bool
  clientGet : String → Option Nat

/-- Exit of the credential-construction block (lines 106-152 of
`src/cmd/main.go`): key-pair failure (HTTP 500), CA-pool failure (HTTP 500),
or the constructed credential together with the cluster server URL. -/
inductive BuildResult where
  | keyPairError
  | caPoolError
  | built (clusterServer : String)
deriving DecidableEq, Repr

/-- Outcome of the block together with the final contents of the three
decoded plaintext buffers at the moment the block exits. -/
structure BuildOutcome where
  result : BuildResult
  clientCertFinal : List Nat
  clientKeyFinal : List Nat
  caCertFinal : List Nat
deriving DecidableEq, Repr

/-- Lines 106-152 of `src/cmd/main.go`: look up the user and cluster
entries, base64-decode their fields (decode errors discarded; a missed
lookup leaves nil buffers and an empty server string), call
`tls.X509KeyPair` — on error return 500 with nothing zeroed — then zero the
certificate and key buffers, build the CA pool — on error return 500 with
the CA buffer not zeroed — and finally zero the CA buffer. -/
def buildCredentials (o : CmdOracles) (users : List UserEntry)
    (clusters : List ClusterEntry) (selectedUser selectedCluster : String) :
    BuildOutcome :=
  let userEntry := lookupUser users selectedUser
  let clientCert := match userEntry with
    | some u => o.decodeData u.clientCertificateData
    | none => []
  let clientKey := match userEntry with
    | some u => o.decodeData u.clientKeyData
    | none => []
  let clusterEntry := lookupCluster clusters selectedCluster
  let caCert := match clusterEntry with
    | some cl => o.decodeData cl.certificateAuthorityData
    | none => []
  let clusterServer := match clusterEntry with
    | some cl => cl.server
    | none => ""
  if o.x509KeyPairOk clientCert clientKey = false then
    ⟨.keyPairError, clientCert, clientKey, caCert⟩
  else
    let clientCertZeroed := List.replicate clientCert.length 0
    let clientKeyZeroed := List.replicate clientKey.length 0
    if o.appendCertsFromPEM caCert = false then
      ⟨.caPoolError, clientCertZeroed, clientKeyZeroed, caCert⟩
    else
      ⟨.built clusterServer, clientCertZeroed, clientKeyZeroed,
        List.replicate caCert.length 0⟩

/-- Responses of the POST `/select-context` handler of `src/cmd/main.go`,
one constructor per exit: 400 "No kubeconfig file or contexts available",
500 "Failed to load client key pair", 500 "Failed to append CA certificate
to pool", 401 "Authentication failed", and the 302 redirect to `/home`. -/
inductive SelectResponse where
  | badRequest
  | keyPairError
  | caPoolError
  | authFailed
  | redirectHome
deriving DecidableEq, Repr

/-- Outcome of the handler: the HTTP response, the final contents of the
three plaintext buffers, how many probe requests were issued, and the
session value written (the handler sets `authenticated = true` only on the
redirect path). -/
structure SelectOutcome where
  response : SelectResponse
  clientCertFinal : List Nat
  clientKeyFinal : List Nat
  caCertFinal : List Nat
  probeCalls : Nat
  sessionAuthenticated : Option Bool
deriving DecidableEq, Repr

/-- The POST `/select-context` handler of `src/cmd/main.go` (lines 88-182):
config guard, context lookup, credential construction, then the single
`client.Get(clusterServer)` probe; a transport error or a status other than
`http.StatusOK` (200) is answered 401, a 200 sets the session and redirects. -/
def selectContextCmd (st : AppState) (selectedContext : String)
    (o : CmdOracles) : SelectOutcome :=
  if st.kubeConfigBytes = none ∨ st.kubeConfig.contexts.length = 0 then
    ⟨.badRequest, [], [], [], 0, none⟩
  else
    let refs := lookupContext st.kubeConfig.contexts selectedContext
    let b := buildCredentials o st.kubeConfig.users st.kubeConfig.clusters
      refs.1 refs.2
    match b.result with
    | .keyPairError =>
      ⟨.keyPairError, b.clientCertFinal, b.clientKeyFinal, b.caCertFinal, 0, none⟩
    | .caPoolError =>
      ⟨.caPoolError, b.clientCertFinal, b.clientKeyFinal, b.caCertFinal, 0, none⟩
    | .built clusterServer =>
      -- Go: `if err != nil || resp.StatusCode != http.StatusOK`, i.e. the
      -- probe result is anything other than a 200 response
      if o.clientGet clusterServer ≠ some 200 then
        ⟨.authFailed, b.clientCertFinal, b.clientKeyFinal, b.caCertFinal,
          1, none⟩
      else
        ⟨.redirectHome, b.clientCertFinal, b.clientKeyFinal, b.caCertFinal,
          1, some true⟩

/-- A concrete kubeconfig used by several concrete evaluations: one context
"prod" referencing cluster "c1" and user "u1". -/
def cfgExample : KubeConfig :=
  ⟨[⟨"prod", "c1", "u1"⟩],
   [⟨"u1", "CERTB64", "KEYB64"⟩],
   [⟨"c1", "https://api.example:6443", "CAB64"⟩]⟩

/-- The running state holding `cfgExample` (nonempty config bytes). -/
def stExample : AppState := ⟨some [1], cfgExample⟩

/-- Oracles where decoding yields nonzero plaintext and `tls.X509KeyPair`
fails (as it does on bytes that are not a PEM key pair). -/
def oracleKeyPairFail : CmdOracles :=
  ⟨fun s => if s = "CERTB64" then [1, 2, 3] else if s = "KEYB64" then [4, 5] else [6],
   fun _ => true,
   fun _ _ => false,
   fun _ => true,
   fun _ => some 200⟩

/-- Claim C2 (code bug): on the key-pair-failure exit the handler returns
with none of the three decoded plaintext buffers zeroed — at a concrete
input where `tls.X509KeyPair` fails, the final buffer contents are the
original nonzero plaintext bytes rather than zero bytes. -/
theorem build_keyPairFail_not_zeroed :
    buildCredentials oracleKeyPairFail cfgExample.users cfgExample.clusters "u1" "c1"
      = ⟨BuildResult.keyPairError, [1, 2, 3], [4, 5], [6]⟩ ∧
    [1, 2, 3] ≠ List.replicate 3 (0 : Nat) := by
  constructor
  · decide
  · decide

/-- Oracles where the CA field's base64 is invalid (`decodeOk` reports the
decode error, which the handler discards) while the decoded bytes still form
a usable CA bundle and every downstream step succeeds. -/
def oracleInvalidCA : CmdOracles :=
  ⟨fun s => if s = "CERTB64" then [1] else if s = "KEYB64" then [2] else [3],
   fun s => s != "CAB64",
   fun _ _ => true,
   fun _ => true,
   fun _ => some 200⟩

/-- Claim C3 counterexample: with the CA field not valid base64, `Build`
does not fail with a decode error — it succeeds outright and the whole
request is answered with the redirect. -/
theorem build_ignores_decode_error_cex :
    oracleInvalidCA.decodeOk "CAB64" = false ∧
    (buildCredentials oracleInvalidCA cfgExample.users cfgExample.clusters "u1" "c1").result
      = BuildResult.built "https://api.example:6443" ∧
    (selectContextCmd stExample "prod" oracleInvalidCA).response
      = SelectResponse.redirectHome := by
  refine ⟨rfl, by decide, by decide⟩

/-- Claim C3 amended: the handler discards the base64 decode errors, so its
whole outcome depends only on the decoded bytes, never on base64 validity:
replacing the validity component of the decode oracle by any other function
changes nothing, and in particular no decode-error failure class exists. -/
theorem selectContext_ignores_decode_validity (st : AppState)
    (selectedContext : String) (o : CmdOracles) (vf : String → Bool) :
    selectContextCmd st selectedContext
        { decodeData := o.decodeData, decodeOk := vf,
          x509KeyPairOk := o.x509KeyPairOk,
          appendCertsFromPEM := o.appendCertsFromPEM,
          clientGet := o.clientGet }
      = selectContextCmd st selectedContext o := rfl

/-- Oracles for the absent-context scenario: `tls.X509KeyPair` rejects the
empty buffers left by the missed lookups (as the real function does) and
everything else succeeds. -/
def oracleMissingCtx : CmdOracles :=
  ⟨fun _ => [9], fun _ => true,
   fun c k => !(c.isEmpty && k.isEmpty),
   fun _ => true, fun _ => some 200⟩

/-- Claim C4 counterexample: with one context "prod" loaded, selecting the
absent name "missing" is not answered with a bad-request/not-found failure:
the lookups silently yield empty names and nil buffers and the request fails
as the internal-error (HTTP 500) key-pair failure. -/
theorem resolve_absent_not_badRequest_cex :
    (selectContextCmd stExample "missing" oracleMissingCtx).response
      = SelectResponse.keyPairError ∧
    SelectResponse.keyPairError ≠ SelectResponse.badRequest := by
  refine ⟨by decide, by decide⟩

/-- When the user lookup misses, both client buffers stay nil, so the block
exits with the key-pair failure whenever `tls.X509KeyPair` rejects nil input. -/
theorem buildCredentials_user_missing (o : CmdOracles) (users : List UserEntry)
    (clusters : List ClusterEntry) (selectedUser selectedCluster : String)
    (huser : lookupUser users selectedUser = none)
    (hkp : o.x509KeyPairOk [] [] = false) :
    buildCredentials o users clusters selectedUser selectedCluster
      = ⟨BuildResult.keyPairError, [], [],
          match lookupCluster clusters selectedCluster with
          | some cl => o.decodeData cl.certificateAuthorityData
          | none => []⟩ := by
  unfold buildCredentials
  rw [huser]
  simp [hkp]

/-- Claim C4 amended: an absent context name (or an absent referenced user)
is not detected by the handler: when the configuration is loaded with at
least one context, the user lookup misses, and `tls.X509KeyPair` rejects the
resulting nil buffers, the request is answered with the internal-error
(HTTP 500) key-pair failure — not with a bad-request NotFound failure; the
bad-request response arises only when no kubeconfig or no contexts are
loaded. -/
theorem resolve_absent_is_internalError (st : AppState) (name : String)
    (o : CmdOracles)
    (hbytes : st.kubeConfigBytes ≠ none)
    (hctx : st.kubeConfig.contexts.length ≠ 0)
    (huser : lookupUser st.kubeConfig.users
        (lookupContext st.kubeConfig.contexts name).1 = none)
    (hkp : o.x509KeyPairOk [] [] = false) :
    (selectContextCmd st name o).response = SelectResponse.keyPairError := by
  have hguard : ¬(st.kubeConfigBytes = none ∨ st.kubeConfig.contexts.length = 0) := by
    push_neg
    exact ⟨hbytes, hctx⟩
  simp only [selectContextCmd, if_neg hguard,
    buildCredentials_user_missing o _ _ _ _ huser hkp]

/-- Witness for C4's amended theorem: the concrete absent name "absent"
against the one-context configuration is answered with the key-pair 500. -/
theorem resolve_absent_is_internalError_witness :
    (selectContextCmd stExample "absent" oracleMissingCtx).response
      = SelectResponse.keyPairError :=
  resolve_absent_is_internalError stExample "absent" oracleMissingCtx
    (by decide) (by decide) (by decide) (by decide)

/-- Claim C5: the probe outcome is decisive and unretried: the handler
issues at most one probe request on every input, and once the flow reaches
the probe (configuration loaded, key pair and CA pool constructed) the
response is the redirect iff the single `client.Get` returned a response
with the success status 200 (`http.StatusOK`); a transport error or any
other status is answered with the 401 unauthorized failure. -/
theorem probe_decides_auth (st : AppState) (name : String) (o : CmdOracles)
    (clusterServer : String)
    (hbytes : st.kubeConfigBytes ≠ none)
    (hctx : st.kubeConfig.contexts.length ≠ 0)
    (hbuilt : (buildCredentials o st.kubeConfig.users st.kubeConfig.clusters
        (lookupContext st.kubeConfig.contexts name).1
        (lookupContext st.kubeConfig.contexts name).2).result
      = BuildResult.built clusterServer) :
    ((selectContextCmd st name o).response = SelectResponse.redirectHome
        ↔ o.clientGet clusterServer = some 200) ∧
    (o.clientGet clusterServer ≠ some 200 →
      (selectContextCmd st name o).response = SelectResponse.authFailed) ∧
    (∀ st' name' o', (selectContextCmd st' name' o').probeCalls ≤ 1) := by
  have hguard : ¬(st.kubeConfigBytes = none ∨ st.kubeConfig.contexts.length = 0) := by
    push_neg
    exact ⟨hbytes, hctx⟩
  refine ⟨?_, ?_, ?_⟩
  · simp only [selectContextCmd, if_neg hguard, hbuilt]
    by_cases hp : o.clientGet clusterServer = some 200
    · simp [hp]
    · simp [hp]
  · intro hne
    simp only [selectContextCmd, if_neg hguard, hbuilt]
    simp [hne]
  · intro st' name' o'
    unfold selectContextCmd
    split
    · decide
    · dsimp only
      split
      · simp
      · simp
      · split
        · simp
        · simp

/-- Oracles on which the whole flow succeeds and the probe returns 200. -/
def oracleProbeOk : CmdOracles :=
  ⟨fun _ => [7], fun _ => true, fun _ _ => true, fun _ => true, fun _ => some 200⟩

/-- Witness for C5: the concrete successful flow ends in the redirect. -/
theorem probe_decides_auth_witness :
    (selectContextCmd stExample "prod" oracleProbeOk).response
      = SelectResponse.redirectHome :=
  (probe_decides_auth stExample "prod" oracleProbeOk "https://api.example:6443"
      (by decide) (by decide) (by decide)).1.mpr rfl

/-- Claim C8: an absent or unreadable configuration document is non-fatal —
startup reaches the running state with nil config bytes, in which the root
page reports the no-configuration message and every `/select-context`
request is answered with the bad-request "no kubeconfig" failure instead of
crashing; a document that is present but fails to parse makes startup fatal. -/
theorem startup_degraded_or_fatal (unmarshal : List Nat → Option KubeConfig) :
    (startup none unmarshal = StartupOutcome.running ⟨none, KubeConfig.empty⟩ ∧
     rootHandler ⟨none, KubeConfig.empty⟩ = RootResponse.noConfigMessage ∧
     ∀ name o, (selectContextCmd ⟨none, KubeConfig.empty⟩ name o).response
        = SelectResponse.badRequest) ∧
    (∀ bs, unmarshal bs = none → startup (some bs) unmarshal = StartupOutcome.fatal) := by
  refine ⟨⟨rfl, by decide, ?_⟩, ?_⟩
  · intro name o
    rfl
  · intro bs h
    simp [startup, h]

/-- Witness for C8: the always-failing parser on concrete bytes is fatal. -/
theorem startup_degraded_or_fatal_witness :
    startup (some [1]) (fun _ => (none : Option KubeConfig)) = StartupOutcome.fatal :=
  (startup_degraded_or_fatal (fun _ => none)).2 [1] rfl

/-- A value stored in the cookie session (the handlers store a boolean and
strings; `session.Get` returns nil for an absent key). -/
inductive SessVal where
  | b (v : Bool)
  | s (v : String)
deriving DecidableEq, Repr

/-- `session.Get`: the stored value for the key, `none` when absent. -/
def sessGet : List (String × SessVal) → String → Option SessVal
  | [], _ => none
  | kv :: rest, k => if kv.1 == k then some kv.2 else sessGet rest k

/-- `os.Getenv`: the variable's value, or the empty string when unset. -/
def getenv (env : String → Option String) (key : String) : String :=
  match env key with
  | some v => v
  | none => ""

/-- Claim C6 counterexample: with ACCESS_ROLE unset, `os.Getenv` yields the
empty string as the required role, and a binding whose roleRef name is empty
with a matching User subject authorizes — refuting that authorization is
always denied when the environment value is absent. -/
theorem accessRole_absent_cex :
    userAuthorized "alice" (getenv (fun _ => none) "ACCESS_ROLE")
        [⟨⟨""⟩, [⟨"User", "alice"⟩]⟩] = true := by decide

/-- Claim C6 amended: an unset ACCESS_ROLE variable is read as the empty
string; authorization is denied for every identity and every binding
sequence in which no binding carries the empty roleRef name (while a binding
with an empty roleRef name and a matching User subject still authorizes). -/
theorem accessRole_absent_denies (env : String → Option String)
    (selectedUser : String) (bindings : List RoleBinding)
    (henv : env "ACCESS_ROLE" = none)
    (hroles : ∀ crb ∈ bindings, crb.roleRef.name ≠ "") :
    userAuthorized selectedUser (getenv env "ACCESS_ROLE") bindings = false := by
  have hrr : getenv env "ACCESS_ROLE" = "" := by
    simp [getenv, henv]
  rw [hrr, userAuthorized_eq_any]
  rw [List.any_eq_false]
  intro crb hcrb
  rw [Bool.not_eq_true, List.any_eq_false]
  intro s _
  have hne : (crb.roleRef.name == "") = false := by
    rw [beq_eq_false_iff_ne]
    exact hroles crb hcrb
  simp [subjectMatch, hne]

/-- Witness for C6's amended theorem: with ACCESS_ROLE unset, a nonempty
role name on the only binding leaves "alice" unauthorized. -/
theorem accessRole_absent_denies_witness :
    userAuthorized "alice" (getenv (fun _ => none) "ACCESS_ROLE")
        [⟨⟨"cluster-admin"⟩, [⟨"User", "alice"⟩]⟩] = false :=
  accessRole_absent_denies (fun _ => none) "alice"
    [⟨⟨"cluster-admin"⟩, [⟨"User", "alice"⟩]⟩] rfl (by decide)

/-- Responses of the POST `/select-context` handler of `src/unnamed/part_000`
(lines 89-121): 400 "No kubeconfig file or contexts available", 500 "Failed
to save session", or the 302 redirect to `/home`. -/
inductive P0SelectResponse where
  | badRequest
  | saveError
  | redirectHome
deriving DecidableEq, Repr

/-- Outcome of that handler: the response, the three session values written
by `session.Set` (none when the handler exits before the writes), and the
number of outbound TLS probe requests performed. -/
structure P0SelectOutcome where
  response : P0SelectResponse
  sessionAuthenticated : Option SessVal
  sessionUser : Option SessVal
  sessionCluster : Option SessVal
  probeCalls : Nat
deriving DecidableEq, Repr

/-- The POST `/select-context` handler of `src/unnamed/part_000` (lines
89-121): after the config guard it looks up the selected context, writes
`authenticated = true`, the user name, and the cluster name into the
session, saves the session (`saveOk` models `session.Save` returning nil),
and redirects.  No TLS client is constructed and no probe request is issued
by this handler, so `probeCalls` is zero on every path. -/
def p0SelectContext (st : AppState) (selectedContext : String)
    (saveOk : Bool) : P0SelectOutcome :=
  if st.kubeConfigBytes = none ∨ st.kubeConfig.contexts.length = 0 then
    ⟨.badRequest, none, none, none, 0⟩
  else
    let refs := lookupContext st.kubeConfig.contexts selectedContext
    if saveOk then
      ⟨.redirectHome, some (.b true), some (.s refs.1), some (.s refs.2), 0⟩
    else
      ⟨.saveError, some (.b true), some (.s refs.1), some (.s refs.2), 0⟩

/-- A name matching no context makes the lookup loop fall through to the Go
zero values. -/
theorem lookupContext_absent (ctxs : List ContextEntry) (name : String)
    (habsent : ∀ ctx ∈ ctxs, ctx.name ≠ name) :
    lookupContext ctxs name = ("", "") := by
  induction ctxs with
  | nil => rfl
  | cons ctx rest ih =>
    have hne : (ctx.name == name) = false := by
      rw [beq_eq_false_iff_ne]
      exact habsent ctx (List.mem_cons_self ctx rest)
    simp only [lookupContext, hne, Bool.false_eq_true, if_false]
    exact ih fun c hc => habsent c (List.mem_cons_of_mem ctx hc)

/-- Claim C9: in the `src/unnamed/part_000` variant, whenever a
configuration with at least one context is loaded (and the session cookie
write succeeds), every `/select-context` request marks the session
authenticated with the selected context's user name and redirects to the
protected page, issuing no TLS probe and validating no credential; when the
submitted name matches no context the stored user and cluster names are the
empty string. -/
theorem p0_select_no_probe (st : AppState) (name : String) (saveOk : Bool)
    (hbytes : st.kubeConfigBytes ≠ none)
    (hctx : st.kubeConfig.contexts.length ≠ 0)
    (hsave : saveOk = true) :
    (p0SelectContext st name saveOk).sessionAuthenticated
        = some (SessVal.b true) ∧
    (p0SelectContext st name saveOk).sessionUser
        = some (SessVal.s (lookupContext st.kubeConfig.contexts name).1) ∧
    (p0SelectContext st name saveOk).response = P0SelectResponse.redirectHome ∧
    (p0SelectContext st name saveOk).probeCalls = 0 ∧
    ((∀ ctx ∈ st.kubeConfig.contexts, ctx.name ≠ name) →
      (p0SelectContext st name saveOk).sessionUser = some (SessVal.s "") ∧
      (p0SelectContext st name saveOk).sessionCluster = some (SessVal.s "")) := by
  have hguard : ¬(st.kubeConfigBytes = none ∨ st.kubeConfig.contexts.length = 0) := by
    push_neg
    exact ⟨hbytes, hctx⟩
  subst hsave
  simp only [p0SelectContext, if_neg hguard, if_pos rfl]
  refine ⟨rfl, rfl, rfl, rfl, ?_⟩
  intro habsent
  rw [lookupContext_absent st.kubeConfig.contexts name habsent]
  exact ⟨rfl, rfl⟩

/-- Witness for C9: against the one-context configuration, the absent name
"absent" is still redirected as authenticated, with no probe issued and the
empty user name stored. -/
theorem p0_select_no_probe_witness :
    (p0SelectContext stExample "absent" true).response
        = P0SelectResponse.redirectHome ∧
    (p0SelectContext stExample "absent" true).probeCalls = 0 ∧
    (p0SelectContext stExample "absent" true).sessionUser
        = some (SessVal.s "") :=
  ⟨(p0_select_no_probe stExample "absent" true (by decide) (by decide) rfl).2.2.1,
   (p0_select_no_probe stExample "absent" true (by decide) (by decide) rfl).2.2.2.1,
   ((p0_select_no_probe stExample "absent" true (by decide) (by decide) rfl).2.2.2.2
      (by decide)).1⟩

/-- Oracles for the external calls of the GET `/home` handler of
`src/unnamed/part_000`: `clientConfigOk` models
`clientcmd.NewClientConfigFromBytes(kubeConfigBytes)` returning a nil error,
`restConfigOk` models `clientConfig.ClientConfig()`, `clientsetOk` models
`kubernetes.NewForConfig`, and `listCRBs`/`listRBs` model the two List calls
(`none` = error, `some` = the returned items). -/
structure HomeOracles where
  clientConfigOk : Option (List Nat) → Bool
  restConfigOk : Bool
  clientsetOk : Bool
  listCRBs : Option (List RoleBinding)
  listRBs : Option (List RoleBinding)

/-- Exits of the GET `/home` handler of `src/unnamed/part_000`: the redirect
to `/` for unauthenticated sessions, the panic of the unchecked
`session.Get("user").(string)` assertion, the five 500 responses, the 403,
and the rendered page. -/
inductive HomeOutcome where
  | redirectRoot
  | panicked
  | clientConfigError
  | restConfigError
  | clientsetError
  | listCRBsError
  | forbidden
  | listRBsError
  | okPage (crbs rbs : List RoleBinding)
deriving DecidableEq, Repr

/-- The GET `/home` handler of `src/unnamed/part_000` (lines 124-200):
redirect to `/` unless the session's "authenticated" value is the boolean
true; extract the session's "user" value with the unchecked type assertion
`.(string)` — any session holding no string there panics; then build the
clientset (three failable steps), list ClusterRoleBindings, run the
authorization loop against the ACCESS_ROLE environment value, answer 403
when unauthorized, list RoleBindings and render the page. -/
def p0Home (sess : List (String × SessVal)) (st : AppState)
    (env : String → Option String) (o : HomeOracles) : HomeOutcome :=
  if sessGet sess "authenticated" ≠ some (SessVal.b true) then
    .redirectRoot
  else
    match sessGet sess "user" with
    | some (SessVal.s selectedUser) =>
      if o.clientConfigOk st.kubeConfigBytes = false then .clientConfigError
      else if o.restConfigOk = false then .restConfigError
      else if o.clientsetOk = false then .clientsetError
      else
        match o.listCRBs with
        | none => .listCRBsError
        | some crbs =>
          if userAuthorized selectedUser (getenv env "ACCESS_ROLE") crbs = false then
            .forbidden
          else
            match o.listRBs with
            | none => .listRBsError
            | some rbs => .okPage crbs rbs
    | _ => .panicked

/-- Claim C10: the protected-page handler extracts the session's "user"
value with an unchecked string type assertion after checking only the
"authenticated" flag: every session whose "authenticated" value is the
boolean true but which holds no string "user" value makes the handler panic
rather than return a typed failure. -/
theorem p0Home_panics_without_user (sess : List (String × SessVal))
    (st : AppState) (env : String → Option String) (o : HomeOracles)
    (hauth : sessGet sess "authenticated" = some (SessVal.b true))
    (huser : ∀ u, sessGet sess "user" ≠ some (SessVal.s u)) :
    p0Home sess st env o = HomeOutcome.panicked := by
  unfold p0Home
  rw [if_neg (fun hne => hne hauth)]
  cases h : sessGet sess "user" with
  | none => rfl
  | some v =>
    cases v with
    | b x => rfl
    | s u => exact absurd h (huser u)

/-- Witness for C10: the concrete session holding only the authenticated
flag (no "user" entry at all) panics the handler. -/
theorem p0Home_panics_without_user_witness :
    p0Home [("authenticated", SessVal.b true)] ⟨none, KubeConfig.empty⟩
        (fun _ => none) ⟨fun _ => true, true, true, some [], some []⟩
      = HomeOutcome.panicked :=
  p0Home_panics_without_user _ _ _ _ rfl
    (fun u h => by
      have hn : sessGet [("authenticated", SessVal.b true)] "user" = none := rfl
      rw [hn] at h
      exact Option.noConfusion h)
